import Mathlib

/-!
Shallow embedding of `src/generating_heatmap.py` (batch RAR extraction,
heatmap generation and cleanup).  The script's effectful behaviour is
modelled by explicit state passing: the relevant slice of the file system
(archive contents, extraction directory, output PNG files) is threaded
through executable functions; OS-level nondeterminism (which extraction
mechanism works, whether a delete attempt hits a transient lock, whether a
`savefig` write succeeds) is an explicit environment record.  Numeric
arrays are represented by their shapes, with the numpy operations of the
script embedded as shape-level partial functions, since the only
observable behaviour of the numeric stage that the specification speaks
about is whether it raises (wrong shape or missing data) and how many
image files are written.
-/

/-- The dataset file names the script searches for (`api_x.h5`, `y.h5`,
`z.h5`).  Only these three names are ever consulted. -/
inductive H5Name where
  | apiX
  | y
  | z
deriving DecidableEq, Repr

/-- An extracted directory tree, as observed by `os.walk` in
`find_h5_file`: the sequence of per-directory file lists that the
recursive walk visits. -/
abbrev DirTree := List (List H5Name)

/-- Embedding of `find_h5_file`'s recursive search (lines 11-16): walk the
directories, return whether `filename in files` holds for some visited
directory. -/
def find_h5_walk : DirTree → H5Name → Bool
  | [], _ => false
  | fs :: rest, n => decide (n ∈ fs) || find_h5_walk rest n

/-- `find_h5_file` as used by `process_rar_file` (lines 194-195): guarded
by `os.path.exists(extracted_path)`; `none` models an absent directory. -/
def find_h5_file : Option DirTree → H5Name → Bool
  | none, _ => false
  | some d, n => find_h5_walk d n

/-! ## extract_rar_file (lines 18-89) -/

/-- `sys.platform` dispatch in `extract_rar_file`: the script
distinguishes only `win32` from everything else. -/
inductive Platfm where
  | win32
  | other
deriving DecidableEq, Repr

/-- Outcome of `import rarfile` + `RarFile(...).extractall` (lines
35-47): succeeds, raises `ImportError` (library not installed), or raises
any other exception (bad archive, `RarCannotExec`, ...).  Both failure
kinds fall through to the platform fallback. -/
inductive LibOutcome where
  | ok
  | importError
  | raises
deriving DecidableEq, Repr

/-- The three extraction mechanisms of the source, in the order the spec
lists them: in-process `rarfile` library, WinRAR executable at fixed
install paths, `unrar` command-line utility on the search path. -/
inductive Mechanism where
  | library
  | winrar
  | unrar
deriving DecidableEq, Repr

/-- OS environment consulted by `extract_rar_file`. -/
structure ExtractEnv where
  platform : Platfm
  lib : LibOutcome
  winrarInstalled : Bool
  winrarRunOk : Bool
  unrarRunOk : Bool
deriving DecidableEq, Repr

/-- Result of `extract_rar_file`: the returned boolean, the resulting
extraction-directory state, and the mechanisms attempted in order. -/
structure ExtractResult where
  ok : Bool
  dir : Option DirTree
  attempts : List Mechanism

/-- A freshly created, empty extraction directory (`os.makedirs`,
line 32): one root directory with no files. -/
def emptyDir : Option DirTree := some [[]]

/-- Embedding of `extract_rar_file` (lines 18-89).  The pre-existing
directory is removed and recreated (lines 25-32); then the `rarfile`
library is tried; on `ImportError` or any other exception the code falls
through to the platform-specific fallback: WinRAR at fixed install paths
on Windows (missing WinRAR raises, caught by the same handler), `unrar`
on the search path elsewhere (`CalledProcessError` and
`FileNotFoundError` both yield `False`).  On success the archive's tree
fills the directory. -/
def extract_rar_file (e : ExtractEnv) (arch : DirTree) (dir0 : Option DirTree) : ExtractResult :=
  match dir0, e.lib with
  | _, .ok => ⟨true, some arch, [.library]⟩
  | _, _ =>
    match e.platform with
    | .win32 =>
      if e.winrarInstalled && e.winrarRunOk then ⟨true, some arch, [.library, .winrar]⟩
      else ⟨false, emptyDir, [.library, .winrar]⟩
    | .other =>
      if e.unrarRunOk then ⟨true, some arch, [.library, .unrar]⟩
      else ⟨false, emptyDir, [.library, .unrar]⟩

/-- The ordered mechanism list actually tried on each platform: the
Windows branch never consults `unrar`, the non-Windows branch never
consults WinRAR. -/
def mechList : Platfm → List Mechanism
  | .win32 => [.library, .winrar]
  | .other => [.library, .unrar]

/-- Whether a given mechanism fails in environment `e`. -/
def mechFails (e : ExtractEnv) : Mechanism → Bool
  | .library => decide (e.lib ≠ LibOutcome.ok)
  | .winrar => !(e.winrarInstalled && e.winrarRunOk)
  | .unrar => !e.unrarRunOk

/-- Reference fallback discipline: try mechanisms in order, stop at the
first success, never retry. -/
def fallbackRun (e : ExtractEnv) : List Mechanism → List Mechanism
  | [] => []
  | mech :: ms => if mechFails e mech then mech :: fallbackRun e ms else [mech]

/-- Extraction succeeds iff some mechanism of the platform's list
works. -/
def extractOk (e : ExtractEnv) : Bool :=
  decide (e.lib = LibOutcome.ok) ||
    (match e.platform with
     | .win32 => e.winrarInstalled && e.winrarRunOk
     | .other => e.unrarRunOk)

/-! ## cleanup_extracted_files (lines 124-184) -/

/-- OS behaviour seen by the cleanup retry loop: the first `failAttempts`
`shutil.rmtree` calls raise a transient lock error
(`PermissionError`), later ones succeed; `forceOk` says whether the
last-resort forced delete via a subprocess (lines 158-172) works. -/
structure CleanupEnv where
  failAttempts : Nat
  forceOk : Bool
deriving DecidableEq, Repr

/-- Result of cleanup: final directory state, the sleeps performed
between failed attempts (milliseconds), and whether the
could-not-clean-up warning was printed.  Cleanup never raises: every
exception is consumed inside the loop. -/
structure CleanupResult where
  dir : Option DirTree
  delaysMs : List Nat
  warned : Bool

/-- The retry loop `for attempt in range(5)` (lines 132-184), with
`retry_delay = 0.5` seconds doubling after every failed attempt
(`delayMs` is in milliseconds).  On the final attempt a failure falls to
the aggressive subprocess delete; if that also fails only a warning is
printed.  `fuel` is the number of loop iterations left (5 at entry). -/
def cleanupFrom (c : CleanupEnv) (t : DirTree) : Nat → Nat → Nat → List Nat → CleanupResult
  | 0, _, _, acc => ⟨some t, acc, true⟩
  | fuel + 1, attempt, delayMs, acc =>
    if c.failAttempts ≤ attempt then ⟨none, acc, false⟩
    else if attempt < 4 then cleanupFrom c t fuel (attempt + 1) (delayMs * 2) (acc ++ [delayMs])
    else if c.forceOk then ⟨none, acc, false⟩
    else ⟨some t, acc, true⟩

/-- Embedding of the `cleanup_extracted_files` closure (lines 124-184):
returns immediately when the directory does not exist, otherwise runs the
bounded retry loop. -/
def cleanup_extracted_files (c : CleanupEnv) : Option DirTree → CleanupResult
  | none => ⟨none, [], false⟩
  | some t => cleanupFrom c t 5 0 500 []

/-! ## Shape-level embedding of the numpy operations

Arrays are represented by their shapes (`List Nat`); each numpy operation
of the script becomes a partial function on shapes, `none` meaning the
operation raises. -/

/-- Array shape. -/
abbrev Shape := List Nat

/-- `np.split(a, k, axis=-1)` (line 268): requires a last axis whose
extent is divisible by `k`; each of the `k` parts keeps the other axes
and has last extent divided by `k`. -/
def npSplitLast (s : Shape) (k : Nat) : Option Shape :=
  match s.getLast? with
  | none => none
  | some d => if d % k = 0 then some (s.dropLast ++ [d / k]) else none

/-- `a.squeeze(axis=-1)` (lines 269-273, 479): requires the last axis to
have extent 1 and drops it. -/
def squeezeLast (s : Shape) : Option Shape :=
  match s.getLast? with
  | some 1 => some s.dropLast
  | _ => none

/-- `a[:, :, k, :]` (hour slicing, lines 276-528): requires at least 4
axes and `k` in range on axis 2, which is removed. -/
def sliceHour (s : Shape) (k : Nat) : Option Shape :=
  if 4 ≤ s.length ∧ k < s.getD 2 0 then some (s.eraseIdx 2) else none

/-- `a[:, :, j]` (feature slicing, lines 530 onward): requires at least 3
axes and `j` in range on axis 2, which is removed. -/
def sliceFeat (s : Shape) (j : Nat) : Option Shape :=
  if 3 ≤ s.length ∧ j < s.getD 2 0 then some (s.eraseIdx 2) else none

/-- numpy broadcasting of two extents. -/
def broadcast2 (a b : Nat) : Option Nat :=
  if a = b then some a else if a = 1 then some b else if b = 1 then some a else none

/-- numpy broadcasting, on reversed shapes (align from the right). -/
def broadcastRev : List Nat → List Nat → Option (List Nat)
  | [], ys => some ys
  | x :: xs, [] => some (x :: xs)
  | x :: xs, y :: ys => do
    let d ← broadcast2 x y
    let rest ← broadcastRev xs ys
    pure (d :: rest)

/-- Shape of `a - b` (and `a + b`, elementwise ops) under numpy
broadcasting; `none` when the shapes are incompatible and the operation
raises. -/
def npBroadcast (s t : Shape) : Option Shape :=
  (broadcastRev s.reverse t.reverse).map List.reverse

/-- `np.max` / `.max()` on an array of the given shape raises on an empty
array: every extent must be positive. -/
def npMaxOk (s : Shape) : Bool :=
  s.all (fun d => decide (0 < d))

/-- `axes[i, j].imshow(a)` accepts `(M, N)`, `(M, N, 3)` or `(M, N, 4)`
data and raises otherwise. -/
def imshowOk (s : Shape) : Bool :=
  decide (s.length = 2) || (decide (s.length = 3) && (decide (s.getD 2 0 = 3) || decide (s.getD 2 0 = 4)))

/-- The per-hour slices of the five forecast sources, of ERA5 and of
`ens_aifs` are taken eagerly for all 24 hours (lines 276-528): all 24
`[:, :, k, :]` slices must succeed; they share one shape, that of slice
0. -/
def hourSlicesAll (s : Shape) : Option Shape :=
  if (List.range 24).all (fun k => (sliceHour s k).isSome) then sliceHour s 0 else none

/-- The per-feature slices `[:, :, j]` for the 6 features (lines 530
onward): all 6 must succeed; they share the shape of slice 0. -/
def featSlicesAll (s : Shape) : Option Shape :=
  if (List.range 6).all (fun j => (sliceFeat s j).isSome) then sliceFeat s 0 else none

/-- The per-(hour, feature) panel shapes reaching the plotting loop: the
common shape of the five forecast-source panels, of the ERA5 panel and of
the `ens_aifs` panel. -/
structure PlotCells where
  mCell : Shape
  eraCell : Shape
  ensCell : Shape

/-- One row of the 6×6 panel grid (lines 1994-2073): the absolute-error
fields `np.flip(np.abs(model - era5), axis=0)` for the five sources and
for `ens_aifs`, the differences relative to ECMWF, the symmetric colour
scale `vmax` (a `.max()` over each difference, raising on empty arrays)
and the six `imshow` calls.  `true` iff no operation raises. -/
def rowOk (c : PlotCells) : Bool :=
  match npBroadcast c.mCell c.eraCell with
  | none => false
  | some d =>
    match npBroadcast c.ensCell c.eraCell with
    | none => false
    | some de =>
      match npBroadcast de d with
      | none => false
      | some d6 =>
        decide (1 ≤ d.length) && decide (1 ≤ de.length) &&
          npMaxOk d && npMaxOk d6 && imshowOk d && imshowOk d6

/-! ## process_rar_file (lines 91-2123) -/

/-- Output image names inside the per-archive result directory
`<result>/<stem>/`: `<stem>_<d>d.png` (consulted by the skip check,
lines 111-117) and `<stem>_<h>h.png` (written by the hour loop,
line 1985). -/
inductive PngName where
  | day (d : Nat)
  | hour (h : Nat)
deriving DecidableEq, Repr

/-- The hour labels `'1h'..'24h'` iterated by the plotting loop
(line 1981). -/
def hoursList : List Nat := (List.range 24).map (· + 1)

/-- The skip check of lines 111-122: all five of
`<stem>_1d.png .. <stem>_5d.png` exist in the output directory. -/
def allDayPngsExist (pngs : List PngName) : Bool :=
  (List.range 5).all (fun d => decide (PngName.day (d + 1) ∈ pngs))

/-- Environment of one `process_rar_file` call: the file-system state it
reads plus the outcome of every OS/library interaction.  `apiXLoad`,
`yLoad`, `zLoad` give the shape of the array a successful
`h5py.File(...)` read would produce, `none` meaning the read raises;
`savefigOk h` says whether `plt.savefig` succeeds for hour `h`. -/
structure ProcEnv where
  rarExists : Bool
  outPngs : List PngName
  extractedDir : Option DirTree
  archive : DirTree
  ext : ExtractEnv
  apiXLoad : Option Shape
  yLoad : Option Shape
  zLoad : Option Shape
  savefigOk : Nat → Bool

/-- Result of the materialization step (lines 193-227). -/
structure MatResult where
  ok : Bool
  dir : Option DirTree
  extractCalled : Bool

/-- The materialization step of `process_rar_file` (lines 193-227): if
both required files are already discoverable by the recursive search,
succeed without extracting; otherwise extract and re-run the search, and
fail when either file is still missing. -/
def materialize (env : ProcEnv) : MatResult :=
  let apiX0 := find_h5_file env.extractedDir .apiX
  let y0 := find_h5_file env.extractedDir .y
  if apiX0 && y0 then ⟨true, env.extractedDir, false⟩
  else
    let r := extract_rar_file env.ext env.archive env.extractedDir
    if r.ok then
      if find_h5_file r.dir .apiX && find_h5_file r.dir .y then ⟨true, r.dir, true⟩
      else ⟨false, r.dir, true⟩
    else ⟨false, r.dir, true⟩

/-- Result of the per-hour plotting loop. -/
structure LoopResult where
  ok : Bool
  saved : List Nat
  pngs : List PngName

/-- The hour loop (lines 1981-2095): for each hour, skip when the PNG
file already exists (lines 1984-1988); otherwise render the six rows (an
exception is caught at line 2097 and yields `return False` after
cleanup) and save the figure (a `savefig` error yields `return False`
after cleanup, lines 2084-2087).  Writing a file adds it to the output
directory. -/
def hourLoop (save : Nat → Bool) (c : PlotCells) : List Nat → List Nat → List PngName → LoopResult
  | [], saved, pngs => ⟨true, saved, pngs⟩
  | h :: hs, saved, pngs =>
    if PngName.hour h ∈ pngs then hourLoop save c hs saved pngs
    else if (List.range 6).all (fun _ => rowOk c) then
      if save h then hourLoop save c hs (saved ++ [h]) (pngs ++ [PngName.hour h])
      else ⟨false, saved, pngs⟩
    else ⟨false, saved, pngs⟩

/-- Result of the load-and-plot stage. -/
structure LapResult where
  ok : Bool
  saved : List Nat
  loggedNoEns : Bool
  pngs : List PngName

/-- Lines 229-2105: load `api_x.h5` (any read error returns `False`
after cleanup), split it into the five sources and take the hour slices
(a shape error raises to the outer handler at line 2107, which cleans up
and returns `False`); load `y.h5`; look for `z.h5` and load it into
`ens_aifs`, printing the continuing-without-ens_aifs message when it is
absent or unreadable (lines 437-477); then `ens_aifs.squeeze(axis=-1)`
(line 479) — a raise when `ens_aifs` is `None` — the ERA5/ens hour
slices, the feature slices and the hour loop. -/
def loadAndPlot (env : ProcEnv) (dir : Option DirTree) : LapResult :=
  match env.apiXLoad with
  | none => ⟨false, [], false, env.outPngs⟩
  | some apiXs =>
    match ((npSplitLast apiXs 5).bind squeezeLast).bind hourSlicesAll with
    | none => ⟨false, [], false, env.outPngs⟩
    | some mh =>
      match env.yLoad with
      | none => ⟨false, [], false, env.outPngs⟩
      | some era5S =>
        let ensLoaded := if find_h5_file dir .z then env.zLoad else none
        match ensLoaded with
        | none => ⟨false, [], true, env.outPngs⟩
        | some ensS =>
          match (do
              let ensSq ← squeezeLast ensS
              let eh ← hourSlicesAll era5S
              let enh ← hourSlicesAll ensSq
              let mc ← featSlicesAll mh
              let ec ← featSlicesAll eh
              let enc ← featSlicesAll enh
              pure (PlotCells.mk mc ec enc)) with
          | none => ⟨false, [], false, env.outPngs⟩
          | some cells =>
            let lr := hourLoop env.savefigOk cells hoursList [] env.outPngs
            ⟨lr.ok, lr.saved, false, lr.pngs⟩

/-- Result of the body of `process_rar_file` between the skip check and
the final cleanup. -/
structure BodyResult where
  ok : Bool
  saved : List Nat
  loggedNoEns : Bool
  pngs : List PngName
  dir : Option DirTree
  extractCalled : Bool

/-- Lines 186-2105 up to, but not including, the cleanup performed on
each return path: the missing-RAR check (lines 188-191), materialization
and the load-and-plot stage. -/
def processBody (env : ProcEnv) : BodyResult :=
  if env.rarExists then
    let m := materialize env
    if m.ok then
      let l := loadAndPlot env m.dir
      ⟨l.ok, l.saved, l.loggedNoEns, l.pngs, m.dir, m.extractCalled⟩
    else ⟨false, [], false, env.outPngs, m.dir, m.extractCalled⟩
  else ⟨false, [], false, env.outPngs, env.extractedDir, false⟩

/-- Observable outcome of one `process_rar_file` call. -/
structure ProcResult where
  ok : Bool
  skipped : Bool
  extractCalled : Bool
  cleanupCalled : Bool
  loggedNoEns : Bool
  saved : List Nat
  pngs : List PngName
  dir : Option DirTree
  cleanupWarned : Bool

/-- Embedding of `process_rar_file` (lines 91-2123).  If all five
`<stem>_<d>d.png` files exist the archive is skipped and `True` returned
without cleanup (lines 111-122).  Otherwise every return path of the
source — success and each failure alike — calls
`cleanup_extracted_files` immediately before returning, so the body is
computed first and cleanup applied once to its final directory state. -/
def process_rar_file (env : ProcEnv) (c : CleanupEnv) : ProcResult :=
  if allDayPngsExist env.outPngs then
    ⟨true, true, false, false, false, [], env.outPngs, env.extractedDir, false⟩
  else
    let b := processBody env
    let cr := cleanup_extracted_files c b.dir
    ⟨b.ok, false, b.extractCalled, true, b.loggedNoEns, b.saved, b.pngs, cr.dir, cr.warned⟩

/-! ## The batch driver (`__main__`, lines 2126-2188) -/

/-- How one `process_rar_file(...)` call inside the batch loop turns out,
as seen at lines 2174-2182: returns `True`, returns `False`, or raises
(the exception is caught and counted as a failure). -/
inductive ProcOutcome where
  | succ
  | fail
  | raises
deriving DecidableEq, Repr

/-- Whether an outcome increments the success counter. -/
def isSucc : ProcOutcome → Bool
  | .succ => true
  | _ => false

/-- Environment of the batch driver: the input-directory checks of lines
2150-2156, the glob result of line 2160 (archives keyed by name), and the
outcome of processing each archive. -/
structure MainEnv where
  dataDirExists : Bool
  dataDirIsDir : Bool
  rarFiles : List Nat
  outcome : Nat → ProcOutcome

/-- Observable outcome of the batch driver. -/
structure MainResult where
  exitCode : Nat
  processed : List Nat
  successful : Nat
  failed : Nat
  summaryPrinted : Bool

/-- The `for rar_path in sorted(rar_files)` loop of lines 2174-2182 with
its success/failure counters; a raised exception is caught, logged and
counted as a failure, and the loop continues. -/
def batchLoop (out : Nat → ProcOutcome) : List Nat → Nat → Nat → List Nat → Nat × Nat × List Nat
  | [], s, f, proc => (s, f, proc)
  | r :: rs, s, f, proc =>
    match out r with
    | .succ => batchLoop out rs (s + 1) f (proc ++ [r])
    | .fail => batchLoop out rs s (f + 1) (proc ++ [r])
    | .raises => batchLoop out rs s (f + 1) (proc ++ [r])

/-- Embedding of `__main__` (lines 2126-2188): `sys.exit(1)` when the
input directory is missing, is not a directory, or contains no `*.rar`
files; otherwise process the archives in sorted-name order, print the
summary, and fall off the end of the script (exit status 0). -/
def main_run (m : MainEnv) : MainResult :=
  if m.dataDirExists then
    if m.dataDirIsDir then
      if m.rarFiles.isEmpty then ⟨1, [], 0, 0, false⟩
      else
        let res := batchLoop m.outcome (List.insertionSort (· ≤ ·) m.rarFiles) 0 0 []
        ⟨0, res.2.2, res.1, res.2.1, true⟩
    else ⟨1, [], 0, 0, false⟩
  else ⟨1, [], 0, 0, false⟩

/-! ## Concrete scenarios -/

/-- A Linux-like environment in which the `rarfile` library works. -/
def extLinuxOk : ExtractEnv := ⟨Platfm.other, LibOutcome.ok, false, false, false⟩

/-- An archive holding well-formed `api_x.h5`, `y.h5` and `z.h5` in its
root directory. -/
def archFull : DirTree := [[H5Name.apiX, H5Name.y, H5Name.z]]

/-- Cleanup environment with no transient lock errors. -/
def cOk : CleanupEnv := ⟨0, true⟩

/-- A fresh end-to-end run: one archive with all three dataset files of
the documented shapes, empty output directory, no pre-existing
extraction directory, all writes succeed. -/
def env1 : ProcEnv :=
  { rarExists := true
    outPngs := []
    extractedDir := none
    archive := archFull
    ext := extLinuxOk
    apiXLoad := some [1, 1, 24, 6, 5]
    yLoad := some [1, 1, 24, 6]
    zLoad := some [1, 1, 24, 6, 1]
    savefigOk := fun _ => true }

/-- First batch run over the fresh scenario. -/
def firstRun : ProcResult := process_rar_file env1 cOk

/-- The same archive processed again, with the file system as the first
run left it (its output PNGs present, its extraction directory gone). -/
def env2 : ProcEnv := { env1 with outPngs := firstRun.pngs, extractedDir := firstRun.dir }

/-- Second batch run over the same input/output pair. -/
def secondRun : ProcResult := process_rar_file env2 cOk

/-- The same archive but without `z.h5`. -/
def archNoZ : DirTree := [[H5Name.apiX, H5Name.y]]

/-- The fresh scenario with an archive lacking `z.h5`. -/
def envNoZ : ProcEnv := { env1 with archive := archNoZ }

/-- An archive missing the required `y.h5`. -/
def archNoY : DirTree := [[H5Name.apiX]]

/-- The fresh scenario with an archive lacking `y.h5`. -/
def envNoY : ProcEnv := { env1 with archive := archNoY }

/-- A pre-existing extraction directory whose required files live in a
subdirectory, found by the recursive walk. -/
def preTree : DirTree := [[], [H5Name.apiX, H5Name.y, H5Name.z]]

/-- The scenario in which the extraction directory already holds both
required files. -/
def envPre : ProcEnv := { env1 with extractedDir := some preTree }

/-- A Windows host where the `rarfile` library raises, WinRAR is not
installed, and `unrar` would succeed were it tried. -/
def envW : ExtractEnv := ⟨Platfm.win32, LibOutcome.raises, false, false, true⟩

/-- Cleanup environment whose first three delete attempts hit a
transient lock. -/
def c3f : CleanupEnv := ⟨3, false⟩

/-- Cleanup environment in which every delete attempt fails, and the
forced delete too. -/
def cAllFail : CleanupEnv := ⟨5, false⟩

/-- Batch environment with a valid input directory and no matching
archives. -/
def mEnvEmpty : MainEnv := ⟨true, true, [], fun _ => ProcOutcome.succ⟩

/-- Per-archive outcomes for a three-archive batch: archive 1 succeeds,
archive 2 raises, archive 3 returns `False`. -/
def out10 : Nat → ProcOutcome :=
  fun n => if n = 1 then ProcOutcome.succ else if n = 2 then ProcOutcome.raises else ProcOutcome.fail

/-- Batch environment with three archives listed out of name order. -/
def mEnv10 : MainEnv := ⟨true, true, [2, 1, 3], out10⟩


/-! ## Helper lemmas -/

/-- A successful extraction returns `True` and leaves the archive's tree
in the extraction directory. -/
lemma extract_ok_dir (e : ExtractEnv) (arch : DirTree) (d : Option DirTree)
    (h : extractOk e = true) :
    (extract_rar_file e arch d).ok = true ∧ (extract_rar_file e arch d).dir = some arch := by
  obtain ⟨p, lib, wi, wr, ur⟩ := e
  cases p <;> cases lib <;> cases wi <;> cases wr <;> cases ur <;>
    simp_all [extract_rar_file, extractOk]

/-- When every mechanism of the platform's list fails, extraction
returns `False`. -/
lemma extract_fail (e : ExtractEnv) (arch : DirTree) (d : Option DirTree)
    (h : extractOk e = false) :
    (extract_rar_file e arch d).ok = false := by
  obtain ⟨p, lib, wi, wr, ur⟩ := e
  cases p <;> cases lib <;> cases wi <;> cases wr <;> cases ur <;>
    simp_all [extract_rar_file, extractOk]

/-- When the first `c.failAttempts < 5` delete attempts fail with a
transient lock error, a later attempt succeeds: the directory is
removed, no warning is printed, and the sleeps are the geometric
sequence 500ms, 1000ms, ... -/
lemma cleanup_removes (c : CleanupEnv) (t : DirTree) (h : c.failAttempts < 5) :
    cleanup_extracted_files c (some t) =
      ⟨none, (List.range c.failAttempts).map (fun k => 500 * 2 ^ k), false⟩ := by
  obtain ⟨n, fo⟩ := c
  simp only at h
  interval_cases n <;> rfl

/-- The geometric delay sequence is strictly increasing. -/
lemma delays_chain_lt (n : Nat) :
    List.Chain' (· < ·) ((List.range n).map (fun k => 500 * 2 ^ k)) := by
  apply List.Pairwise.chain'
  apply List.Pairwise.map
  · intro a b hab
    have h2 : (2 : Nat) ^ a < 2 ^ b := Nat.pow_lt_pow_right (by omega) hab
    omega
  · exact List.pairwise_lt_range n

/-- A single hour slice of a 4-axis literal shape. -/
lemma sliceHour_eq (a b t f k : Nat) (hk : k < t) :
    sliceHour [a, b, t, f] k = some [a, b, f] := by
  unfold sliceHour
  rw [if_pos]
  · rfl
  · exact ⟨by simp, by simpa [List.getD] using hk⟩

/-- A single feature slice of a 3-axis literal shape. -/
lemma sliceFeat_eq (a b f j : Nat) (hj : j < f) :
    sliceFeat [a, b, f] j = some [a, b] := by
  unfold sliceFeat
  rw [if_pos]
  · rfl
  · exact ⟨by simp, by simpa [List.getD] using hj⟩

/-- All 24 hour slices of a 4-axis array with at least 24 entries on
axis 2 succeed, yielding the shape with axis 2 removed. -/
lemma hourSlicesAll_eq (a b t f : Nat) (ht : 24 ≤ t) :
    hourSlicesAll [a, b, t, f] = some [a, b, f] := by
  have hall : ((List.range 24).all fun k => (sliceHour [a, b, t, f] k).isSome) = true := by
    rw [List.all_eq_true]
    intro k hk
    rw [List.mem_range] at hk
    rw [sliceHour_eq a b t f k (by omega)]
    rfl
  rw [hourSlicesAll, hall, if_pos rfl, sliceHour_eq a b t f 0 (by omega)]

/-- All 6 feature slices of a 3-axis array with at least 6 entries on
axis 2 succeed, yielding the shape with axis 2 removed. -/
lemma featSlicesAll_eq (a b f : Nat) (hf : 6 ≤ f) :
    featSlicesAll [a, b, f] = some [a, b] := by
  have hall : ((List.range 6).all fun j => (sliceFeat [a, b, f] j).isSome) = true := by
    rw [List.all_eq_true]
    intro j hj
    rw [List.mem_range] at hj
    rw [sliceFeat_eq a b f j (by omega)]
    rfl
  rw [featSlicesAll, hall, if_pos rfl, sliceFeat_eq a b f 0 (by omega)]

/-- With equal nonempty two-axis panels for the forecast sources, ERA5
and ens_aifs, every operation of one plotting row succeeds. -/
lemma rowOk_eq (a b : Nat) (ha : 0 < a) (hb : 0 < b) :
    rowOk ⟨[a, b], [a, b], [a, b]⟩ = true := by
  have hself : npBroadcast [a, b] [a, b] = some [a, b] := by
    simp [npBroadcast, broadcastRev, broadcast2]
  simp [rowOk, hself, npMaxOk, imshowOk, ha, hb]

/-- When no PNG for the listed hours pre-exists, every row renders and
every `savefig` succeeds, the hour loop writes exactly one image per
listed hour, in order. -/
lemma hourLoop_writes (save : Nat → Bool) (c : PlotCells) (hrow : rowOk c = true)
    (hs : List Nat) :
    ∀ (saved : List Nat) (pngs : List PngName),
      (∀ h ∈ hs, save h = true) → hs.Nodup → (∀ h ∈ hs, PngName.hour h ∉ pngs) →
      hourLoop save c hs saved pngs = ⟨true, saved ++ hs, pngs ++ hs.map PngName.hour⟩ := by
  induction hs with
  | nil => intro saved pngs _ _ _; simp [hourLoop]
  | cons h hs ih =>
    intro saved pngs hsave hnd hfresh
    have hnotmem : PngName.hour h ∉ pngs := hfresh h (by simp)
    have hall6 : ((List.range 6).all fun _ => rowOk c) = true := by
      rw [List.all_eq_true]; intro k _; exact hrow
    rw [hourLoop, if_neg hnotmem, hall6, if_pos rfl, hsave h (by simp), if_pos rfl]
    rw [ih (saved ++ [h]) (pngs ++ [PngName.hour h]) (fun x hx => hsave x (by simp [hx]))
      (List.Nodup.of_cons hnd)]
    · simp
    · intro x hx
      rcases List.nodup_cons.mp hnd with ⟨hh, _⟩
      simp only [List.mem_append, List.mem_singleton]
      rintro (hmem | heq)
      · exact hfresh x (by simp [hx]) hmem
      · exact hh (by (have : x = h := by simpa using heq); rw [← this]; exact hx)

/-- When both required files are already discoverable under the existing
extraction directory, materialization succeeds at once, without
extraction and with the directory untouched. -/
lemma materialize_direct (env : ProcEnv) (t : DirTree)
    (hdir : env.extractedDir = some t)
    (ha : find_h5_walk t H5Name.apiX = true) (hy : find_h5_walk t H5Name.y = true) :
    materialize env = ⟨true, some t, false⟩ := by
  simp [materialize, hdir, find_h5_file, ha, hy]

/-- When the required files are not yet discoverable and extraction
succeeds, materialization re-searches the archive's tree: it succeeds
exactly when the archive holds both files. -/
lemma materialize_after_extract (env : ProcEnv)
    (hpre : (find_h5_file env.extractedDir H5Name.apiX &&
      find_h5_file env.extractedDir H5Name.y) = false)
    (hex : extractOk env.ext = true) :
    materialize env =
      ⟨find_h5_walk env.archive H5Name.apiX && find_h5_walk env.archive H5Name.y,
        some env.archive, true⟩ := by
  obtain ⟨hok, hdir⟩ := extract_ok_dir env.ext env.archive env.extractedDir hex
  simp only [materialize]
  rw [hpre, if_neg (by simp), hok, if_pos rfl, hdir]
  simp only [find_h5_file]
  split
  · next hcond => rw [hcond]
  · next hcond =>
      rw [Bool.not_eq_true] at hcond
      rw [hcond]

/-- When the required files are not yet discoverable and every extraction
mechanism fails, materialization fails with the freshly created empty
directory left behind. -/
lemma materialize_extract_fails (env : ProcEnv)
    (hpre : (find_h5_file env.extractedDir H5Name.apiX &&
      find_h5_file env.extractedDir H5Name.y) = false)
    (hex : extractOk env.ext = false) :
    (materialize env).ok = false ∧ (materialize env).extractCalled = true := by
  have hok := extract_fail env.ext env.archive env.extractedDir hex
  rw [materialize]
  simp [hpre, hok]

/-- With all three dataset files loadable at the documented shapes
(`(a, b, t, f, 5)`, `(a, b, t, f)`, `(a, b, t, f, 1)` with `a, b`
positive, at least 24 hours and at least 6 features), no pre-existing
hour PNGs and all writes succeeding, the load-and-plot stage writes one
image per hour and succeeds. -/
lemma loadAndPlot_success (env : ProcEnv) (dir : Option DirTree) (a b t f : Nat)
    (ha : 0 < a) (hb : 0 < b) (ht : 24 ≤ t) (hf : 6 ≤ f)
    (hapi : env.apiXLoad = some [a, b, t, f, 5])
    (hy : env.yLoad = some [a, b, t, f])
    (hzf : find_h5_file dir H5Name.z = true)
    (hz : env.zLoad = some [a, b, t, f, 1])
    (hsave : ∀ h, env.savefigOk h = true)
    (hpng : ∀ h, PngName.hour h ∉ env.outPngs) :
    loadAndPlot env dir = ⟨true, hoursList, false, env.outPngs ++ hoursList.map PngName.hour⟩ := by
  have hsplit : npSplitLast [a, b, t, f, 5] 5 = some [a, b, t, f, 1] := by
    simp [npSplitLast]
  have hsq : squeezeLast [a, b, t, f, 1] = some [a, b, t, f] := by
    simp [squeezeLast]
  have hchain : ((npSplitLast [a, b, t, f, 5] 5).bind squeezeLast).bind hourSlicesAll
      = some [a, b, f] := by
    rw [hsplit, Option.some_bind, hsq, Option.some_bind, hourSlicesAll_eq a b t f ht]
  have hloop := hourLoop_writes env.savefigOk ⟨[a, b], [a, b], [a, b]⟩ (rowOk_eq a b ha hb)
    hoursList [] env.outPngs (fun h _ => hsave h) (by decide) (fun h _ => hpng h)
  simp only [loadAndPlot, hapi, hchain, hy, hzf, if_pos rfl, hz, if_true]
  rw [hsq]
  simp [hourSlicesAll_eq a b t f ht, featSlicesAll_eq a b f hf, hloop]

/-- When `z.h5` is absent from the extraction directory (or fails to
load), but the earlier stages proceed normally, the load-and-plot stage
prints the continuing-without-ens_aifs message, writes nothing, and
fails. -/
lemma loadAndPlot_noZ (env : ProcEnv) (dir : Option DirTree) (a b t f : Nat) (ys : Shape)
    (ht : 24 ≤ t)
    (hapi : env.apiXLoad = some [a, b, t, f, 5])
    (hy : env.yLoad = some ys)
    (hEns : (if find_h5_file dir H5Name.z then env.zLoad else none) = none) :
    loadAndPlot env dir = ⟨false, [], true, env.outPngs⟩ := by
  have hsplit : npSplitLast [a, b, t, f, 5] 5 = some [a, b, t, f, 1] := by
    simp [npSplitLast]
  have hsq : squeezeLast [a, b, t, f, 1] = some [a, b, t, f] := by
    simp [squeezeLast]
  have hchain : ((npSplitLast [a, b, t, f, 5] 5).bind squeezeLast).bind hourSlicesAll
      = some [a, b, f] := by
    rw [hsplit, Option.some_bind, hsq, Option.some_bind, hourSlicesAll_eq a b t f ht]
  simp only [loadAndPlot, hapi, hchain, hy, hEns]

/-- Unrolling of the batch loop: it visits every archive, in order, and
counts successes and failures. -/
lemma batchLoop_eq (out : Nat → ProcOutcome) :
    ∀ (l : List Nat) (s f : Nat) (proc : List Nat),
      batchLoop out l s f proc =
        (s + l.countP (fun x => isSucc (out x)),
         f + l.countP (fun x => !isSucc (out x)),
         proc ++ l) := by
  intro l
  induction l with
  | nil => intro s f proc; simp [batchLoop]
  | cons r rs ih =>
    intro s f proc
    cases hr : out r <;>
      simp [batchLoop, hr, ih, List.countP_cons, isSucc] <;> omega

/-- Counting with a predicate and with its negation partitions a
list. -/
lemma countP_add_countP_neg (p : Nat → Bool) (l : List Nat) :
    l.countP p + l.countP (fun x => !p x) = l.length := by
  induction l with
  | nil => simp
  | cons x l ih =>
    cases hx : p x <;> simp [List.countP_cons, hx] <;> omega

/-! ## Claim theorems -/

/-- Claim C4, counterexample to the claim as stated: on a Windows host
where the `rarfile` library raises and WinRAR is absent,
`extract_rar_file` returns `False` although the command-line utility
mechanism (`unrar`), which would succeed in this environment, is never
attempted — so it does not fall through the full three-mechanism list
(library, platform executable, CLI utility) before reporting failure. -/
theorem c4_counterexample :
    (extract_rar_file envW archFull none).ok = false ∧
    Mechanism.unrar ∉ (extract_rar_file envW archFull none).attempts ∧
    mechFails envW Mechanism.unrar = false := by
  decide

/-- Claim C4 (amended): the mechanism list is platform-specific — on
Windows `(library, WinRAR at fixed install paths)`, elsewhere
`(library, unrar on the search path)`.  Within the platform's list every
failing mechanism falls through to the next one in order, no mechanism
is retried (the attempt list is the ordered duplicate-free run up to the
first success), and `False` is returned exactly when all mechanisms of
the platform's list fail. -/
theorem c4_amended_fallback (e : ExtractEnv) (arch : DirTree) (dir0 : Option DirTree) :
    ((extract_rar_file e arch dir0).ok = false ↔
      ∀ mech ∈ mechList e.platform, mechFails e mech = true) ∧
    (extract_rar_file e arch dir0).attempts = fallbackRun e (mechList e.platform) ∧
    (extract_rar_file e arch dir0).attempts.Nodup := by
  obtain ⟨p, lib, wi, wr, ur⟩ := e
  cases p <;> cases lib <;> cases wi <;> cases wr <;> cases ur <;>
    simp [extract_rar_file, mechList, mechFails, fallbackRun]

/-- Witness for the amended C4 on a concrete Windows environment. -/
theorem c4_amended_fallback_witness :
    ((extract_rar_file envW archFull none).ok = false ↔
      ∀ mech ∈ mechList envW.platform, mechFails envW mech = true) ∧
    (extract_rar_file envW archFull none).attempts = fallbackRun envW (mechList envW.platform) ∧
    (extract_rar_file envW archFull none).attempts.Nodup :=
  c4_amended_fallback envW archFull none

/-- Claim C5: when the required dataset files are not discoverable
before extraction, extraction completes, and either required file is
still missing from the archive's tree, `process_rar_file` returns
`False`; provided the cleanup deletion succeeds (fewer than 5 transient
failures), no extraction directory remains when it returns. -/
theorem c5_missing_after_extract (env : ProcEnv) (c : CleanupEnv)
    (hskip : allDayPngsExist env.outPngs = false)
    (hrar : env.rarExists = true)
    (hpre : (find_h5_file env.extractedDir H5Name.apiX &&
      find_h5_file env.extractedDir H5Name.y) = false)
    (hex : extractOk env.ext = true)
    (hmiss : (find_h5_walk env.archive H5Name.apiX &&
      find_h5_walk env.archive H5Name.y) = false)
    (hc : c.failAttempts < 5) :
    (process_rar_file env c).ok = false ∧ (process_rar_file env c).dir = none := by
  have hmat := materialize_after_extract env hpre hex
  rw [hmiss] at hmat
  simp [process_rar_file, hskip, processBody, hrar, hmat, cleanup_removes c env.archive hc]

/-- Witness for C5: the fresh scenario whose archive lacks `y.h5`. -/
theorem c5_missing_after_extract_witness :
    (allDayPngsExist envNoY.outPngs = false ∧
      envNoY.rarExists = true ∧
      (find_h5_file envNoY.extractedDir H5Name.apiX &&
        find_h5_file envNoY.extractedDir H5Name.y) = false ∧
      extractOk envNoY.ext = true ∧
      (find_h5_walk envNoY.archive H5Name.apiX &&
        find_h5_walk envNoY.archive H5Name.y) = false ∧
      cOk.failAttempts < 5) ∧
    (process_rar_file envNoY cOk).ok = false ∧ (process_rar_file envNoY cOk).dir = none :=
  ⟨⟨by decide, by decide, by decide, by decide, by decide, by decide⟩,
    c5_missing_after_extract envNoY cOk (by decide) (by decide) (by decide) (by decide)
      (by decide) (by decide)⟩

/-- Claim C6: when both required dataset files are already discoverable
by the recursive search under the existing extraction directory, the
materialization step succeeds immediately — `extract_rar_file` is never
invoked, and the pre-existing directory is neither deleted nor recreated
by that step. -/
theorem c6_idempotent_short_circuit (env : ProcEnv) (c : CleanupEnv) (t : DirTree)
    (hskip : allDayPngsExist env.outPngs = false)
    (hrar : env.rarExists = true)
    (hdir : env.extractedDir = some t)
    (ha : find_h5_walk t H5Name.apiX = true)
    (hy : find_h5_walk t H5Name.y = true) :
    materialize env = ⟨true, some t, false⟩ ∧
    (process_rar_file env c).extractCalled = false := by
  have hm := materialize_direct env t hdir ha hy
  exact ⟨hm, by simp [process_rar_file, hskip, processBody, hrar, hm]⟩

/-- Witness for C6: a pre-existing directory holding the required files
in a subdirectory. -/
theorem c6_idempotent_short_circuit_witness :
    (allDayPngsExist envPre.outPngs = false ∧
      envPre.rarExists = true ∧
      envPre.extractedDir = some preTree ∧
      find_h5_walk preTree H5Name.apiX = true ∧
      find_h5_walk preTree H5Name.y = true) ∧
    materialize envPre = ⟨true, some preTree, false⟩ ∧
    (process_rar_file envPre cOk).extractCalled = false :=
  ⟨⟨by decide, by decide, rfl, by decide, by decide⟩,
    c6_idempotent_short_circuit envPre cOk preTree (by decide) (by decide) rfl
      (by decide) (by decide)⟩

/-- Claim C7: when the first `N < 5` delete attempts fail with a
transient lock error, cleanup eventually succeeds — the extraction
directory is removed on a later attempt, the sleeps between attempts are
the strictly (exponentially) increasing sequence 500ms, 1000ms, ... —
and no error or warning is surfaced to the caller of cleanup. -/
theorem c7_cleanup_retry (c : CleanupEnv) (t : DirTree) (h : c.failAttempts < 5) :
    (cleanup_extracted_files c (some t)).dir = none ∧
    (cleanup_extracted_files c (some t)).warned = false ∧
    (cleanup_extracted_files c (some t)).delaysMs =
      (List.range c.failAttempts).map (fun k => 500 * 2 ^ k) ∧
    List.Chain' (· < ·) (cleanup_extracted_files c (some t)).delaysMs := by
  rw [cleanup_removes c t h]
  exact ⟨rfl, rfl, rfl, delays_chain_lt c.failAttempts⟩

/-- Witness for C7 at `N = 3` transient failures. -/
theorem c7_cleanup_retry_witness :
    c3f.failAttempts < 5 ∧
    ((cleanup_extracted_files c3f (some archFull)).dir = none ∧
      (cleanup_extracted_files c3f (some archFull)).warned = false ∧
      (cleanup_extracted_files c3f (some archFull)).delaysMs =
        (List.range c3f.failAttempts).map (fun k => 500 * 2 ^ k) ∧
      List.Chain' (· < ·) (cleanup_extracted_files c3f (some archFull)).delaysMs) :=
  ⟨by decide, c7_cleanup_retry c3f archFull (by decide)⟩

/-- Claim C8: on every path of `process_rar_file` that follows the skip
check, cleanup is attempted before returning; and the boolean result is
unchanged by the cleanup environment — in particular an archive whose
images were all written still returns `True` when cleanup exhausts all
retries, and a failing cleanup only sets the warning flag, it never
raises (the embedding is a total function whose `ok` field is
independent of the cleanup environment). -/
theorem c8_cleanup_always_attempted (env : ProcEnv) (c c1 c2 : CleanupEnv)
    (h : allDayPngsExist env.outPngs = false) :
    (process_rar_file env c).cleanupCalled = true ∧
    (process_rar_file env c1).ok = (process_rar_file env c2).ok := by
  simp [process_rar_file, h]

/-- Witness for C8: the fresh scenario, comparing a clean cleanup with
one that exhausts all retries. -/
theorem c8_cleanup_always_attempted_witness :
    allDayPngsExist env1.outPngs = false ∧
    (process_rar_file env1 cOk).cleanupCalled = true ∧
    (process_rar_file env1 cOk).ok = (process_rar_file env1 cAllFail).ok :=
  ⟨by decide, c8_cleanup_always_attempted env1 cOk cOk cAllFail (by decide)⟩

/-- Claim C1: evaluation of the batch code over two consecutive runs of
the same fresh scenario.  The first run succeeds and writes all 24 hour
images; on the second run the archive is NOT skipped — the completion
check of lines 111-122 looks for `<stem>_1d.png .. <stem>_5d.png`, names
the hour loop never produces — so extraction is performed again, even
though no image is rewritten (the per-hour check of lines 1984-1988
skips every hour) and the output files are unchanged. -/
theorem c1_second_run_reextracts :
    firstRun.ok = true ∧ firstRun.saved = hoursList ∧
    secondRun.skipped = false ∧ secondRun.extractCalled = true ∧
    secondRun.saved = [] ∧ secondRun.pngs = firstRun.pngs ∧ secondRun.ok = true := by
  decide

/-- Claim C2: evaluation of the code at the failing input — an archive
holding well-formed `api_x.h5` and `y.h5` of the documented shapes but
no `z.h5`.  Contrary to the claim, `process_rar_file` writes zero images
and returns `False` (after printing that it is continuing without
ens_aifs data, it dereferences the `None` value `ens_aifs`); the
otherwise identical archive that also carries `z.h5` yields the expected
24 images and `True`. -/
theorem c2_no_z_returns_false :
    (process_rar_file envNoZ cOk).ok = false ∧
    (process_rar_file envNoZ cOk).saved = [] ∧
    (process_rar_file envNoZ cOk).loggedNoEns = true ∧
    (process_rar_file env1 cOk).ok = true ∧
    (process_rar_file env1 cOk).saved = hoursList := by
  decide

/-- Claim C3: when extraction succeeds and `api_x.h5` and `y.h5` are
found and load at the documented shapes but `z.h5` is absent from the
archive (or fails to load), `process_rar_file` prints the
continuing-without-ens_aifs message, yet writes no image and returns
`False`: `ens_aifs` is `None` and its unconditional `squeeze`
dereference raises, the per-archive handler catches the exception,
cleans up (the directory is removed when deletion succeeds within the
retry budget) and returns `False`. -/
theorem c3_continue_without_ens_still_fails (env : ProcEnv) (c : CleanupEnv)
    (a b t f : Nat) (ys : Shape)
    (ht : 24 ≤ t)
    (hout : env.outPngs = [])
    (hrar : env.rarExists = true)
    (hdir : env.extractedDir = none)
    (harchA : find_h5_walk env.archive H5Name.apiX = true)
    (harchY : find_h5_walk env.archive H5Name.y = true)
    (hzmiss : find_h5_walk env.archive H5Name.z = false ∨ env.zLoad = none)
    (hex : extractOk env.ext = true)
    (hapi : env.apiXLoad = some [a, b, t, f, 5])
    (hy : env.yLoad = some ys)
    (hc : c.failAttempts < 5) :
    (process_rar_file env c).ok = false ∧
    (process_rar_file env c).loggedNoEns = true ∧
    (process_rar_file env c).saved = [] ∧
    (process_rar_file env c).dir = none := by
  have hpre : (find_h5_file env.extractedDir H5Name.apiX &&
      find_h5_file env.extractedDir H5Name.y) = false := by
    simp [hdir, find_h5_file]
  have hmat := materialize_after_extract env hpre hex
  rw [harchA, harchY] at hmat
  have hEns : (if find_h5_file (some env.archive) H5Name.z then env.zLoad else none) = none := by
    rcases hzmiss with hz | hz
    · simp [find_h5_file, hz]
    · cases hzf : find_h5_file (some env.archive) H5Name.z <;> simp [hz]
  have hlap := loadAndPlot_noZ env (some env.archive) a b t f ys ht hapi hy hEns
  have hskip : allDayPngsExist env.outPngs = false := by
    rw [hout]; decide
  simp [process_rar_file, hskip, processBody, hrar, hmat, hlap,
    cleanup_removes c env.archive hc]

/-- Witness for C3: the fresh scenario whose archive lacks `z.h5`. -/
theorem c3_continue_without_ens_still_fails_witness :
    (24 ≤ 24 ∧
      envNoZ.outPngs = [] ∧
      envNoZ.rarExists = true ∧
      envNoZ.extractedDir = none ∧
      find_h5_walk envNoZ.archive H5Name.apiX = true ∧
      find_h5_walk envNoZ.archive H5Name.y = true ∧
      (find_h5_walk envNoZ.archive H5Name.z = false ∨ envNoZ.zLoad = none) ∧
      extractOk envNoZ.ext = true ∧
      envNoZ.apiXLoad = some [1, 1, 24, 6, 5] ∧
      envNoZ.yLoad = some [1, 1, 24, 6] ∧
      cOk.failAttempts < 5) ∧
    (process_rar_file envNoZ cOk).ok = false ∧
    (process_rar_file envNoZ cOk).loggedNoEns = true ∧
    (process_rar_file envNoZ cOk).saved = [] ∧
    (process_rar_file envNoZ cOk).dir = none :=
  ⟨⟨by decide, rfl, by decide, rfl, by decide, by decide, Or.inl (by decide), by decide,
      rfl, rfl, by decide⟩,
    c3_continue_without_ens_still_fails envNoZ cOk 1 1 24 6 [1, 1, 24, 6] (by decide) rfl
      (by decide) rfl (by decide) (by decide) (Or.inl (by decide)) (by decide) rfl rfl
      (by decide)⟩

/-- Claim C9: for every input directory that is missing, is not a
directory, or contains zero files matching the archive glob, the
process exits with status 1 and processes no archive — `process_rar_file`
(and hence `extract_rar_file`, which is only reached through it) is
never invoked. -/
theorem c9_bad_input_aborts (m : MainEnv)
    (h : m.dataDirExists = false ∨ m.dataDirIsDir = false ∨ m.rarFiles = []) :
    (main_run m).exitCode = 1 ∧ (main_run m).processed = [] := by
  rcases h with h | h | h
  · simp [main_run, h]
  · cases hde : m.dataDirExists <;> simp [main_run, h, hde]
  · cases hde : m.dataDirExists <;> cases hdd : m.dataDirIsDir <;> simp [main_run, h, hde, hdd]

/-- Witness for C9: a valid directory containing zero archives. -/
theorem c9_bad_input_aborts_witness :
    (mEnvEmpty.dataDirExists = false ∨ mEnvEmpty.dataDirIsDir = false ∨
      mEnvEmpty.rarFiles = []) ∧
    (main_run mEnvEmpty).exitCode = 1 ∧ (main_run mEnvEmpty).processed = [] :=
  ⟨Or.inr (Or.inr rfl), c9_bad_input_aborts mEnvEmpty (Or.inr (Or.inr rfl))⟩

/-- Claim C10: for every non-empty archive list with a valid input
directory, the batch driver processes the archives one at a time in
sorted-name order (the processed sequence is sorted and a permutation of
the glob result); a raising archive is caught and counted as a failure
without aborting the loop (every archive is still processed and
successes plus failures account for every archive); the summary is
printed; and the exit status is 0 regardless of how many archives
failed. -/
theorem c10_batch_drives_all (m : MainEnv)
    (he : m.dataDirExists = true) (hd : m.dataDirIsDir = true) (hne : m.rarFiles ≠ []) :
    (main_run m).exitCode = 0 ∧
    (main_run m).processed = List.insertionSort (· ≤ ·) m.rarFiles ∧
    List.Sorted (· ≤ ·) (main_run m).processed ∧
    List.Perm (main_run m).processed m.rarFiles ∧
    (main_run m).successful = m.rarFiles.countP (fun x => isSucc (m.outcome x)) ∧
    (main_run m).failed = m.rarFiles.countP (fun x => !isSucc (m.outcome x)) ∧
    (main_run m).successful + (main_run m).failed = m.rarFiles.length ∧
    (main_run m).summaryPrinted = true := by
  have hne' : m.rarFiles.isEmpty = false := by
    cases hf : m.rarFiles with
    | nil => exact absurd hf hne
    | cons a l => rfl
  have hperm := List.perm_insertionSort (· ≤ ·) m.rarFiles
  have hcs := hperm.countP_eq (fun x => isSucc (m.outcome x))
  have hcf := hperm.countP_eq (fun x => !isSucc (m.outcome x))
  refine ⟨?_, ?_, ?_, ?_, ?_, ?_, ?_, ?_⟩
  · simp [main_run, he, hd, hne']
  · simp [main_run, he, hd, hne', batchLoop_eq]
  · simp only [main_run, he, hd, hne', if_true, Bool.false_eq_true, if_false, batchLoop_eq]
    simpa using List.sorted_insertionSort (· ≤ ·) m.rarFiles
  · simp only [main_run, he, hd, hne', if_true, Bool.false_eq_true, if_false, batchLoop_eq]
    simpa using hperm
  · simp [main_run, he, hd, hne', batchLoop_eq, hcs]
  · simp [main_run, he, hd, hne', batchLoop_eq, hcf]
  · simp only [main_run, he, hd, hne', if_true, Bool.false_eq_true, if_false, batchLoop_eq]
    simp only [Nat.zero_add]
    rw [hcs, hcf]
    exact countP_add_countP_neg (fun x => isSucc (m.outcome x)) m.rarFiles
  · simp [main_run, he, hd, hne']

/-- Witness for C10: three archives listed out of order, one success,
one raising archive, one failure. -/
theorem c10_batch_drives_all_witness :
    (mEnv10.dataDirExists = true ∧ mEnv10.dataDirIsDir = true ∧ mEnv10.rarFiles ≠ []) ∧
    (main_run mEnv10).exitCode = 0 ∧
    (main_run mEnv10).processed = List.insertionSort (· ≤ ·) mEnv10.rarFiles ∧
    List.Sorted (· ≤ ·) (main_run mEnv10).processed ∧
    List.Perm (main_run mEnv10).processed mEnv10.rarFiles ∧
    (main_run mEnv10).successful = mEnv10.rarFiles.countP (fun x => isSucc (mEnv10.outcome x)) ∧
    (main_run mEnv10).failed = mEnv10.rarFiles.countP (fun x => !isSucc (mEnv10.outcome x)) ∧
    (main_run mEnv10).successful + (main_run mEnv10).failed = mEnv10.rarFiles.length ∧
    (main_run mEnv10).summaryPrinted = true :=
  ⟨⟨rfl, rfl, by decide⟩, c10_batch_drives_all mEnv10 rfl rfl (by decide)⟩

/-- Supplementary characterisation of the success path: a fresh archive
holding well-formed `api_x.h5`, `y.h5` AND `z.h5` of the documented
shapes, with a working extraction mechanism, succeeding writes and a
cleanup that completes within the retry budget, yields exactly the 24
hour images, no residual extraction directory and `True`. -/
theorem process_full_success (env : ProcEnv) (c : CleanupEnv) (a b t f : Nat)
    (ha : 0 < a) (hb : 0 < b) (ht : 24 ≤ t) (hf : 6 ≤ f)
    (hrar : env.rarExists = true)
    (hout : env.outPngs = [])
    (hdir : env.extractedDir = none)
    (harchA : find_h5_walk env.archive H5Name.apiX = true)
    (harchY : find_h5_walk env.archive H5Name.y = true)
    (harchZ : find_h5_walk env.archive H5Name.z = true)
    (hex : extractOk env.ext = true)
    (hapi : env.apiXLoad = some [a, b, t, f, 5])
    (hy : env.yLoad = some [a, b, t, f])
    (hz : env.zLoad = some [a, b, t, f, 1])
    (hsave : ∀ h, env.savefigOk h = true)
    (hc : c.failAttempts < 5) :
    (process_rar_file env c).ok = true ∧
    (process_rar_file env c).saved = hoursList ∧
    (process_rar_file env c).pngs = hoursList.map PngName.hour ∧
    (process_rar_file env c).dir = none := by
  have hpre : (find_h5_file env.extractedDir H5Name.apiX &&
      find_h5_file env.extractedDir H5Name.y) = false := by
    simp [hdir, find_h5_file]
  have hmat := materialize_after_extract env hpre hex
  rw [harchA, harchY] at hmat
  have hzf : find_h5_file (some env.archive) H5Name.z = true := harchZ
  have hpng : ∀ h, PngName.hour h ∉ env.outPngs := by
    intro h
    rw [hout]
    exact List.not_mem_nil _
  have hlap := loadAndPlot_success env (some env.archive) a b t f ha hb ht hf hapi hy hzf hz
    hsave hpng
  have hskip : allDayPngsExist env.outPngs = false := by
    rw [hout]; decide
  rw [hout] at hlap
  simp [process_rar_file, hskip, processBody, hrar, hmat, hlap,
    cleanup_removes c env.archive hc]
